import Mathlib

/-!
Shallow embedding of the core of `miniaudio.py` (pyminiaudio): the sample
format model, the extension-based format dispatcher, the `DecodedSoundFile`
record, the streaming-decode generator, and the device callback bridge
(`AbstractDevice` / `PlaybackDevice` / `DuplexStream`).

Native calls into the C library (`lib.*`) are external collaborators with a
fixed contract; they are modelled by their observable effect on the Python
state (e.g. `ma_device_start` succeeding, `ma_decoder_read_pcm_frames`
returning up to the requested number of frames).
-/

namespace PyMiniaudio

/-- The `ma_format_*` sample format tags imported from `_miniaudio.lib`. -/
inductive MaFormat : Type where
  | unknown
  | u8
  | s16
  | s24
  | s32
  | f32
deriving DecidableEq, Repr

/-- Python exceptions raised by the embedded code paths.  `miniaudioError`
models `MiniaudioError`, `decodeError` models `DecodeError` (a subclass),
`valueError` models `ValueError`, `typeError` models `TypeError`. -/
inductive Err : Type where
  | miniaudioError (msg : String)
  | decodeError (msg : String)
  | valueError (msg : String)
  | typeError (msg : String)
deriving DecidableEq, Repr

/-- Embedding of `_ma_format_from_width(sample_width, is_float)` from `miniaudio.py`:
the `is_float` branch is tested first and returns `ma_format_f32`
without inspecting `sample_width`; otherwise widths 1/2/4 map to
u8/s16/s32 and any other width raises `ValueError`. -/
def ma_format_from_width (sample_width : Nat) (is_float : Bool) : Except Err MaFormat :=
  if is_float then
    Except.ok MaFormat.f32
  else if sample_width = 1 then
    Except.ok MaFormat.u8
  else if sample_width = 2 then
    Except.ok MaFormat.s16
  else if sample_width = 4 then
    Except.ok MaFormat.s32
  else
    Except.error (Err.valueError "unsupported sample_width")

/-- The byte width assigned to a format by `_decode_ma_format(ma_output_format)`
(the array prototype it also returns is a representation detail):
f32 and s32 are 4 bytes, u8 is 1, s16 is 2, anything else raises
`ValueError`. -/
def decode_ma_format_width (ma_output_format : MaFormat) : Except Err Nat :=
  if ma_output_format = MaFormat.f32 then
    Except.ok 4
  else if ma_output_format = MaFormat.u8 then
    Except.ok 1
  else if ma_output_format = MaFormat.s16 then
    Except.ok 2
  else if ma_output_format = MaFormat.s32 then
    Except.ok 4
  else
    Except.error (Err.valueError "unsupported miniaudio sample format")

/-- Python `str.rfind(c)` on a character list: index of the last occurrence
of `c`, or `-1` when absent. -/
def rfindChar : List Char → Char → Int
  | [], _ => -1
  | x :: xs, c =>
      let rest := rfindChar xs c
      if rest ≥ 0 then rest + 1
      else if x = c then 0
      else -1

/-- The extension part of `os.path.splitext` (posixpath): the suffix from the
last dot, provided that dot lies after the last path separator and some
non-dot character precedes it inside the basename (so names consisting of
leading dots, like `.bashrc`, have no extension). -/
def splitext_ext (p : List Char) : List Char :=
  let dotIndex := rfindChar p '.'
  let sepIndex := rfindChar p '/'
  if dotIndex > sepIndex then
    let basePart := (p.drop (sepIndex + 1).toNat).take (dotIndex - sepIndex - 1).toNat
    if basePart.any (fun ch => ch ≠ '.') then p.drop dotIndex.toNat
    else []
  else []

/-- Python `str.lower()` on the ASCII extensions we dispatch on. -/
def lowerChars (s : List Char) : List Char :=
  s.map Char.toLower

/-- The four opaque decoder adapters selected by the dispatcher. -/
inductive Adapter : Type where
  | vorbis
  | mp3
  | flac
  | wav
deriving DecidableEq, Repr

/-- The shared extension dispatch chain of `get_file_info` and `read_file`:
`ext = os.path.splitext(filename)[1].lower()`, then `.ogg`/`.vorbis` pick the
vorbis adapter, `.mp3` mp3, `.flac` flac, `.wav` wav, and any other
extension raises `DecodeError("unsupported file format")`. -/
def file_ext_dispatch (filename : List Char) : Except Err Adapter :=
  let ext := lowerChars (splitext_ext filename)
  if ext = ".ogg".toList ∨ ext = ".vorbis".toList then
    Except.ok Adapter.vorbis
  else if ext = ".mp3".toList then
    Except.ok Adapter.mp3
  else if ext = ".flac".toList then
    Except.ok Adapter.flac
  else if ext = ".wav".toList then
    Except.ok Adapter.wav
  else
    Except.error (Err.decodeError "unsupported file format")

/-- Embedding of `DecodedSoundFile` from `miniaudio.py`: PCM samples of a fully decoded
file plus properties.  `duration` (a float) and `sample_format_name` (an FFI
string lookup) are omitted; neither is consulted by any embedded code path.
Samples are the elements of the `array.array`. -/
structure DecodedSoundFile : Type where
  name : List Char
  nchannels : Nat
  sample_rate : Nat
  sample_width : Nat
  sample_format : MaFormat
  samples : List Int
  num_frames : Nat
deriving DecidableEq, Repr

/-- Embedding of `DecodedSoundFile.__init__`: stores its arguments unchecked and derives
`num_frames = len(samples) // nchannels` by floor division (`nchannels` is
positive for every decoder-produced value; division by zero does not arise
on any call site). -/
def DecodedSoundFile.make (name : List Char) (nchannels sample_rate sample_width : Nat)
    (sample_format : MaFormat) (samples : List Int) : DecodedSoundFile :=
  { name := name
    nchannels := nchannels
    sample_rate := sample_rate
    sample_width := sample_width
    sample_format := sample_format
    samples := samples
    num_frames := samples.length / nchannels }

/-- One PCM frame: the interleaved samples of every channel at one instant. -/
abbrev Frame : Type := List Int

/-- The native `ma_decoder` as seen through `ma_decoder_read_pcm_frames`:
an abstract stream holding the frames not yet read.  A read of `want`
frames returns up to `want` frames and advances the stream. -/
structure Decoder : Type where
  frames : List Frame
deriving DecidableEq

/-- The suspended state of `_samples_generator(frames_to_read, nchannels,
ma_output_format, decoder, data)` after its priming `next()` (which is what
`stream_file` / `stream_memory` hand to the caller).  `closed` records that
the `finally` block has run `ma_decoder_uninit`. -/
structure SampleStream : Type where
  frames_to_read : Nat
  nchannels : Nat
  sample_width : Nat
  allocated_buffer_frames : Nat
  decoder : Decoder
  closed : Bool
deriving DecidableEq

/-- The stream state built by `_samples_generator` before its first yield:
it pre-allocates `max(frames_to_read, 16384) * nchannels * sample_width`
bytes of decode buffer, so its frame capacity is
`max(frames_to_read, 16384)`. -/
def samples_generator_init (frames_to_read nchannels sample_width : Nat)
    (decoder : Decoder) : SampleStream :=
  { frames_to_read := frames_to_read
    nchannels := nchannels
    sample_width := sample_width
    allocated_buffer_frames := max frames_to_read 16384
    decoder := decoder
    closed := false }

/-- Outcome of resuming the streaming generator once: a yielded chunk of
interleaved samples, normal exhaustion (`StopIteration` after the loop
breaks), or a propagated exception; in the latter two cases the `finally`
block has closed the decoder. -/
inductive PullResult : Type where
  | chunk (samples : List Int) (rest : SampleStream)
  | stopped (rest : SampleStream)
  | failed (e : Err) (rest : SampleStream)
deriving DecidableEq

/-- One resumption of the generator loop in `_samples_generator`:
`want_frames = (yield samples) or frames_to_read` (so sending `None`
– i.e. plain `next()` – or `0` selects the default), then the capacity
check `want_frames > allocated_buffer_frames` raising `MiniaudioError`
before any decoder read, then `ma_decoder_read_pcm_frames` which returns
up to `want_frames` frames; zero frames breaks the loop. -/
def SampleStream.pull (s : SampleStream) (sent : Option Nat) : PullResult :=
  let want_frames := match sent with
    | none => s.frames_to_read
    | some w => if w = 0 then s.frames_to_read else w
  if want_frames > s.allocated_buffer_frames then
    PullResult.failed
      (Err.miniaudioError "wanted to read more frames than storage was allocated for")
      { s with closed := true }
  else
    let taken := s.decoder.frames.take want_frames
    if taken.length = 0 then
      PullResult.stopped { s with closed := true }
    else
      PullResult.chunk taken.flatten { s with decoder := ⟨s.decoder.frames.drop want_frames⟩ }

/-- A byte string (Python `bytes` / `bytearray`). -/
abbrev Bytes : Type := List Nat

/-- Embedding of `_bytes_from_generator_samples(samples)`: reinterprets an `array.array`
or non-byte `memoryview` as a flat byte view (`memoryview(...).cast(chr 66)`)
and passes `bytes` through unchanged.  The cast is a zero-copy,
length- and content-preserving reinterpretation, so payloads are
represented here directly by their byte view and the function is the
identity on that representation. -/
def bytes_from_generator_samples (samples : Bytes) : Bytes :=
  samples

/-- Outcome of one `generator.send(x)` on a bound routine: it yields a
value, finishes (`StopIteration`), or raises. -/
inductive SendOutcome (β : Type) : Type where
  | yielded (b : β)
  | stopIteration
  | raised (e : Err)
deriving DecidableEq

/-- A playback producer routine: sent the requested frame count, it yields
a PCM payload (given by its byte view). -/
structure PlaybackGen : Type where
  send : Nat → SendOutcome Bytes

/-- A capture consumer routine: sent the captured bytes; its yielded value
is ignored by the bridge. -/
structure CaptureGen : Type where
  send : Bytes → SendOutcome Unit

/-- A duplex routine: sent the captured bytes, it yields an output payload
(possibly `None` or empty, both falsy — modelled as `[]`). -/
structure DuplexGen : Type where
  send : Bytes → SendOutcome Bytes

/-- The state shared by all devices (`AbstractDevice` in `miniaudio.py`):
the bound routine (`callback_generator`), whether `_device` still holds the
native device (`device_open`), whether native delivery is running
(`started`, the effect of `ma_device_start` / `ma_device_stop` /
`ma_device_uninit`), and whether `id(self)` is registered in the global
`_callback_data` table (`registered`). -/
structure AbstractDevice (G : Type) : Type where
  callback_generator : Option G
  device_open : Bool
  started : Bool
  registered : Bool

/-- Embedding of `AbstractDevice.start(callback_generator)`: raises `MiniaudioError` when
a routine is already bound, otherwise binds the routine and starts the
native device (the `inspect.isgenerator` `TypeError` check is vacuous here
because `G` only contains generators; `ma_device_start` is modelled as
succeeding). -/
def AbstractDevice.start {G : Type} (self : AbstractDevice G) (g : G) :
    Except Err (AbstractDevice G) :=
  match self.callback_generator with
  | some _ => Except.error (Err.miniaudioError "cannot start an already started device")
  | none => Except.ok { self with callback_generator := some g, started := true }

/-- Embedding of `AbstractDevice.stop()`: sets `self.callback_generator = None`, then
halts native delivery with `ma_device_stop` (modelled as succeeding). -/
def AbstractDevice.stop {G : Type} (self : AbstractDevice G) : AbstractDevice G :=
  { self with callback_generator := none, started := false }

/-- Embedding of `AbstractDevice.close()`: sets `self.callback_generator = None`; if
`_device` is not `None`, uninitializes it and sets it to `None`; if
`id(self)` is in `_callback_data`, deletes the entry.  No branch can
raise. -/
def AbstractDevice.close {G : Type} (self : AbstractDevice G) : AbstractDevice G :=
  let s1 : AbstractDevice G := { self with callback_generator := none }
  let s2 : AbstractDevice G :=
    if s1.device_open then { s1 with device_open := false, started := false } else s1
  if s2.registered then { s2 with registered := false } else s2

/-- Embedding of `PlaybackDevice`: playback-specific sample layout on top of the shared
device state (`sample_width` and `nchannels` as set by `__init__` from
`_decode_ma_format`). -/
structure PlaybackDevice extends AbstractDevice PlaybackGen : Type where
  sample_width : Nat
  nchannels : Nat

/-- Observable result of one `PlaybackDevice.data_callback` invocation:
the device state afterwards, the exception propagated out of the callback
(if any), and the bytes `ffi.memmove`d into the hardware output buffer. -/
structure PlaybackTick : Type where
  dev : PlaybackDevice
  thrown : Option Err
  written : Bytes

/-- Embedding of `PlaybackDevice.data_callback(device, output, input, framecount)`:
if a routine is bound, `send(framecount)`; `StopIteration` unbinds and
returns; any other exception unbinds and re-raises; a truthy payload whose
byte length exceeds `framecount * sample_width * nchannels` unbinds and
raises `MiniaudioError`; otherwise the payload is copied to the output
buffer. -/
def PlaybackDevice.data_callback (self : PlaybackDevice) (framecount : Nat) : PlaybackTick :=
  match self.callback_generator with
  | none => { dev := self, thrown := none, written := [] }
  | some gen =>
    match gen.send framecount with
    | SendOutcome.stopIteration =>
        { dev := { self with callback_generator := none }, thrown := none, written := [] }
    | SendOutcome.raised e =>
        { dev := { self with callback_generator := none }, thrown := some e, written := [] }
    | SendOutcome.yielded samples =>
        let samples_bytes := bytes_from_generator_samples samples
        if samples_bytes ≠ [] then
          if samples_bytes.length > framecount * self.sample_width * self.nchannels then
            { dev := { self with callback_generator := none }
              thrown := some (Err.miniaudioError "number of frames from callback exceeds maximum")
              written := [] }
          else
            { dev := self, thrown := none, written := samples_bytes }
        else
          { dev := self, thrown := none, written := [] }

/-- Embedding of `CaptureDevice`: capture-specific sample layout on top of the shared
device state. -/
structure CaptureDevice extends AbstractDevice CaptureGen : Type where
  sample_width : Nat
  nchannels : Nat

/-- Observable result of one `CaptureDevice.data_callback` invocation:
state afterwards, propagated exception, and the bytes delivered to the
consumer routine. -/
structure CaptureTick : Type where
  dev : CaptureDevice
  thrown : Option Err
  delivered : Option Bytes

/-- Embedding of `CaptureDevice.data_callback`: if a routine is bound, copies
`sample_width * nchannels * framecount` bytes of the hardware input into an
owned buffer and sends it to the routine; `StopIteration` unbinds, any
other exception unbinds and re-raises; the yielded value is ignored. -/
def CaptureDevice.data_callback (self : CaptureDevice) (input : Bytes) (framecount : Nat) :
    CaptureTick :=
  match self.callback_generator with
  | none => { dev := self, thrown := none, delivered := none }
  | some gen =>
    let buffer_size := self.sample_width * self.nchannels * framecount
    let data := input.take buffer_size
    match gen.send data with
    | SendOutcome.stopIteration =>
        { dev := { self with callback_generator := none }, thrown := none, delivered := some data }
    | SendOutcome.raised e =>
        { dev := { self with callback_generator := none }, thrown := some e, delivered := some data }
    | SendOutcome.yielded _ =>
        { dev := self, thrown := none, delivered := some data }

/-- Embedding of `DuplexStream`: duplex-specific sample layout on top of the shared
device state (`sample_width` is derived from the capture format). -/
structure DuplexStream extends AbstractDevice DuplexGen : Type where
  sample_width : Nat
  capture_channels : Nat
  playback_channels : Nat

/-- Observable result of one `DuplexStream.data_callback` invocation:
state afterwards, propagated exception, and the bytes `ffi.memmove`d into
the hardware output buffer. -/
structure DuplexTick : Type where
  dev : DuplexStream
  thrown : Option Err
  written : Bytes

/-- Embedding of `DuplexStream.data_callback(device, output, input, framecount)`: always
copies `sample_width * capture_channels * framecount` bytes of input into
an owned buffer; if a routine is bound, sends it that buffer;
`StopIteration` unbinds and returns, any other exception unbinds and
re-raises; a truthy returned payload is converted with
`_bytes_from_generator_samples` and `ffi.memmove`d into the output buffer
in full — the source performs no size check on this path. -/
def DuplexStream.data_callback (self : DuplexStream) (input : Bytes) (framecount : Nat) :
    DuplexTick :=
  let buffer_size := self.sample_width * self.capture_channels * framecount
  let in_data := input.take buffer_size
  match self.callback_generator with
  | none => { dev := self, thrown := none, written := [] }
  | some gen =>
    match gen.send in_data with
    | SendOutcome.stopIteration =>
        { dev := { self with callback_generator := none }, thrown := none, written := [] }
    | SendOutcome.raised e =>
        { dev := { self with callback_generator := none }, thrown := some e, written := [] }
    | SendOutcome.yielded out_data =>
        if out_data ≠ [] then
          { dev := self, thrown := none, written := bytes_from_generator_samples out_data }
        else
          { dev := self, thrown := none, written := [] }

/-- What `internal_data_callback` does on one hardware invocation:
return immediately, or unpack the user-data id and dispatch through the
`_callback_data` registry to the device object whose `data_callback` runs. -/
inductive BridgeAction : Type where
  | earlyReturn
  | dispatch (userdata_id : Int)
deriving DecidableEq, Repr

/-- Embedding of `internal_data_callback(device, output, input, framecount)` up to the
registry lookup: `if framecount == 0 or not device.pUserData: return`
guards before anything else; otherwise the id packed behind `pUserData`
(a `char*` holding `struct.pack` of the 64-bit id; `none` models a NULL
pointer) is unpacked and `_callback_data[userdata_id].data_callback(...)`
is invoked — represented by `dispatch userdata_id`. -/
def internal_data_callback (framecount : Nat) (pUserData : Option Int) : BridgeAction :=
  match pUserData with
  | none => BridgeAction.earlyReturn
  | some userdata_id =>
      if framecount = 0 then BridgeAction.earlyReturn
      else BridgeAction.dispatch userdata_id

/-- A producer routine that always yields the four-byte payload 0,0,0,0. -/
def fourByteGen : PlaybackGen := ⟨fun _ => SendOutcome.yielded [0, 0, 0, 0]⟩

/-- A producer routine that always yields a five-byte payload. -/
def overfullGen : PlaybackGen := ⟨fun _ => SendOutcome.yielded [1, 2, 3, 4, 5]⟩

/-- A 16-bit stereo playback device with `overfullGen` bound. -/
def examplePlaybackDevice : PlaybackDevice :=
  { callback_generator := some overfullGen
    device_open := true
    started := true
    registered := true
    sample_width := 2
    nchannels := 2 }

/-- A duplex routine that always returns a five-byte payload. -/
def overfullDuplexGen : DuplexGen := ⟨fun _ => SendOutcome.yielded [1, 2, 3, 4, 5]⟩

/-- A 16-bit stereo duplex device with `overfullDuplexGen` bound. -/
def exampleDuplexStream : DuplexStream :=
  { callback_generator := some overfullDuplexGen
    device_open := true
    started := true
    registered := true
    sample_width := 2
    capture_channels := 2
    playback_channels := 2 }

/-- Shared device state with `fourByteGen` bound, running. -/
def exampleBoundState : AbstractDevice PlaybackGen :=
  { callback_generator := some fourByteGen
    device_open := true
    started := true
    registered := true }

/-- A freshly initialized stream over a two-frame stereo decoder, with the
default chunk size 1024. -/
def exampleStream : SampleStream :=
  samples_generator_init 1024 2 2 ⟨[[1, 2], [3, 4]]⟩

/-- C5: for every filename the dispatcher selects the adapter by the
lowercased `os.path.splitext` extension — `.ogg`/`.vorbis` select vorbis,
`.mp3` mp3, `.flac` flac, `.wav` wav — and raises the unsupported-format
`DecodeError` exactly on every other extension, so matching is
case-insensitive and depends on the extension only. -/
theorem C5_dispatch_by_lowercase_extension (filename : List Char) :
    (file_ext_dispatch filename = Except.ok Adapter.vorbis ↔
      (lowerChars (splitext_ext filename) = ".ogg".toList ∨
       lowerChars (splitext_ext filename) = ".vorbis".toList)) ∧
    (file_ext_dispatch filename = Except.ok Adapter.mp3 ↔
      lowerChars (splitext_ext filename) = ".mp3".toList) ∧
    (file_ext_dispatch filename = Except.ok Adapter.flac ↔
      lowerChars (splitext_ext filename) = ".flac".toList) ∧
    (file_ext_dispatch filename = Except.ok Adapter.wav ↔
      lowerChars (splitext_ext filename) = ".wav".toList) ∧
    (file_ext_dispatch filename = Except.error (Err.decodeError "unsupported file format") ↔
      lowerChars (splitext_ext filename) ∉
        [".ogg".toList, ".vorbis".toList, ".mp3".toList, ".flac".toList, ".wav".toList]) := by
  simp only [file_ext_dispatch]
  split_ifs with h1 h2 h3 h4
  · rcases h1 with h | h <;> simp [h]
  · simp_all
  · simp_all
  · simp_all
  · simp_all

/-- C6: `close()` is idempotent — a second call is a no-op — and every
call unbinds any bound routine, releases the native device, removes the
registry entry and halts delivery, leaving the device in a terminal
state.  `close` is a total function of the state: no branch raises. -/
theorem C6_close_idempotent_and_terminal {G : Type} (d : AbstractDevice G) :
    AbstractDevice.close (AbstractDevice.close d) = AbstractDevice.close d ∧
    (AbstractDevice.close d).callback_generator = none ∧
    (AbstractDevice.close d).device_open = false ∧
    (AbstractDevice.close d).registered = false := by
  simp only [AbstractDevice.close]
  split_ifs <;> simp_all

/-- C7 counterexample: the claim says a float request of width other than
4 fails, but `_ma_format_from_width(3, True)` returns `ma_format_f32`
(the `is_float` branch never inspects the width). -/
theorem C7_counterexample :
    ma_format_from_width 3 true = Except.ok MaFormat.f32 := by
  rfl

/-- C7 amended: every float request returns the 32-bit float format
regardless of width; for non-float requests, width 1 gives unsigned 8-bit,
2 gives signed 16-bit, 4 gives signed 32-bit, and exactly the remaining
widths raise the unsupported-width `ValueError`. -/
theorem C7_format_from_width_amended (w : Nat) :
    ma_format_from_width w true = Except.ok MaFormat.f32 ∧
    ma_format_from_width 1 false = Except.ok MaFormat.u8 ∧
    ma_format_from_width 2 false = Except.ok MaFormat.s16 ∧
    ma_format_from_width 4 false = Except.ok MaFormat.s32 ∧
    (ma_format_from_width w false = Except.error (Err.valueError "unsupported sample_width") ↔
      ¬ (w = 1 ∨ w = 2 ∨ w = 4)) := by
  refine ⟨rfl, rfl, rfl, rfl, ?_⟩
  unfold ma_format_from_width
  split_ifs <;> simp_all

/-- C8 counterexample: the claim says a decode whose sample count is not an
exact multiple of the channel count fails, but the `DecodedSoundFile`
constructor accepts 3 samples over 2 channels without any check and floors
the frame count to 1 (and 1 frame times 2 channels is not 3 samples). -/
theorem C8_counterexample :
    (DecodedSoundFile.make [] 2 44100 2 MaFormat.s16 [0, 0, 0]).num_frames = 1 ∧
    (DecodedSoundFile.make [] 2 44100 2 MaFormat.s16 [0, 0, 0]).nchannels = 2 ∧
    (DecodedSoundFile.make [] 2 44100 2 MaFormat.s16 [0, 0, 0]).samples.length = 3 := by
  exact ⟨rfl, rfl, rfl⟩

/-- C8 amended: `num_frames` is derived as `len(samples) // nchannels` by
floor division and construction is total (a partial-frame remainder is
silently floored, never a failure); when the sample count is an exact
multiple of the channel count the division is exact:
`num_frames * nchannels = len(samples)`. -/
theorem C8_frame_count_floor (name : List Char) (nch sr sw : Nat) (fmt : MaFormat)
    (samples : List Int) (hdvd : nch ∣ samples.length) :
    (DecodedSoundFile.make name nch sr sw fmt samples).num_frames = samples.length / nch ∧
    (DecodedSoundFile.make name nch sr sw fmt samples).num_frames * nch = samples.length := by
  exact ⟨rfl, Nat.div_mul_cancel hdvd⟩

/-- C8 witness: a 4-sample stereo buffer gives exactly 2 frames. -/
theorem C8_frame_count_floor_witness :
    (DecodedSoundFile.make [] 2 44100 2 MaFormat.s16 [5, 6, 7, 8]).num_frames = 4 / 2 ∧
    (DecodedSoundFile.make [] 2 44100 2 MaFormat.s16 [5, 6, 7, 8]).num_frames * 2 = 4 :=
  C8_frame_count_floor [] 2 44100 2 MaFormat.s16 [5, 6, 7, 8] (by decide)

/-- C9: when the requested frame count is 0 or the device carries a NULL
user-data pointer, `internal_data_callback` returns immediately, without
unpacking the user-data id, without the `_callback_data` registry lookup
and without resuming any bound routine. -/
theorem C9_bridge_guard (framecount : Nat) (pUserData : Option Int)
    (h : framecount = 0 ∨ pUserData = none) :
    internal_data_callback framecount pUserData = BridgeAction.earlyReturn := by
  unfold internal_data_callback
  rcases h with h | h
  · subst h
    cases pUserData <;> simp
  · rw [h]

/-- C9 witness: frame count 0 with a valid user-data pointer returns early. -/
theorem C9_bridge_guard_witness :
    internal_data_callback 0 (some 5) = BridgeAction.earlyReturn :=
  C9_bridge_guard 0 (some 5) (Or.inl rfl)

/-- C1: on a playback invocation of `n` frames whose producer payload
exceeds `n * sample_width * nchannels` bytes, `data_callback` raises the
overflow `MiniaudioError`, the producer binding is already cleared in the
state the error leaves behind, nothing is copied to the output buffer, and
the device remains operable: `start` subsequently binds a new routine. -/
theorem C1_playback_overflow_unbinds (d : PlaybackDevice) (g g2 : PlaybackGen) (n : Nat)
    (b : Bytes)
    (hbind : d.callback_generator = some g)
    (hsend : g.send n = SendOutcome.yielded b)
    (hover : n * d.sample_width * d.nchannels < (bytes_from_generator_samples b).length) :
    (d.data_callback n).thrown =
        some (Err.miniaudioError "number of frames from callback exceeds maximum") ∧
    (d.data_callback n).dev.callback_generator = none ∧
    (d.data_callback n).written = [] ∧
    ∃ a2, (d.data_callback n).dev.toAbstractDevice.start g2 = Except.ok a2 ∧
      a2.callback_generator = some g2 := by
  have hb : bytes_from_generator_samples b ≠ [] := by
    have hpos : 0 < (bytes_from_generator_samples b).length :=
      Nat.lt_of_le_of_lt (Nat.zero_le _) hover
    exact List.ne_nil_of_length_pos hpos
  simp only [PlaybackDevice.data_callback, hbind, hsend]
  rw [if_pos hb, if_pos hover]
  refine ⟨rfl, rfl, rfl, ?_⟩
  exact ⟨_, rfl, rfl⟩

/-- C1 witness: a stereo 16-bit device whose producer yields 5 bytes on a
1-frame request (bound 4 bytes) raises, unbinds, writes nothing, and can
be restarted with a 4-byte producer. -/
theorem C1_playback_overflow_unbinds_witness :
    (examplePlaybackDevice.data_callback 1).thrown =
        some (Err.miniaudioError "number of frames from callback exceeds maximum") ∧
    (examplePlaybackDevice.data_callback 1).dev.callback_generator = none ∧
    (examplePlaybackDevice.data_callback 1).written = [] ∧
    ∃ a2, (examplePlaybackDevice.data_callback 1).dev.toAbstractDevice.start fourByteGen =
        Except.ok a2 ∧ a2.callback_generator = some fourByteGen :=
  C1_playback_overflow_unbinds examplePlaybackDevice overfullGen fourByteGen 1
    [1, 2, 3, 4, 5] rfl rfl (by decide)

/-- C2: the claim says a duplex payload is validated against the Playback
size bound before the copy; in the source `DuplexStream.data_callback`
performs no size check — here a 5-byte payload on a 1-frame stereo 16-bit
invocation (bound 4 bytes) is copied into the hardware output buffer in
full, with no error raised. -/
theorem C2_duplex_copy_unchecked :
    (exampleDuplexStream.data_callback [9, 9, 9, 9] 1).written = [1, 2, 3, 4, 5] ∧
    (exampleDuplexStream.data_callback [9, 9, 9, 9] 1).written.length = 5 ∧
    (exampleDuplexStream.data_callback [9, 9, 9, 9] 1).thrown = none ∧
    1 * exampleDuplexStream.sample_width * exampleDuplexStream.playback_channels = 4 := by
  exact ⟨rfl, rfl, rfl, rfl⟩

/-- C3 counterexample: the claim says `stop()` leaves the routine binding
unchanged, but on a device bound to `fourByteGen` the binding is `None`
after `stop()` returns. -/
theorem C3_counterexample :
    exampleBoundState.callback_generator = some fourByteGen ∧
    (AbstractDevice.stop exampleBoundState).callback_generator = none := by
  exact ⟨rfl, rfl⟩

/-- C3 amended: for every device (the shared `AbstractDevice` path of
playback, capture and duplex), `stop()` halts hardware delivery and also
clears the routine binding (`callback_generator` becomes `None`); the
native device resource itself is retained. -/
theorem C3_stop_clears_binding {G : Type} (d : AbstractDevice G) :
    (AbstractDevice.stop d).callback_generator = none ∧
    (AbstractDevice.stop d).started = false ∧
    (AbstractDevice.stop d).device_open = d.device_open ∧
    (AbstractDevice.stop d).registered = d.registered := by
  exact ⟨rfl, rfl, rfl, rfl⟩

/-- C4: on any stream state, a pull requesting strictly more frames than
`allocated_buffer_frames` fails with the capacity `MiniaudioError`; the
failing pull performs no decoder read, so the decoder position is
unchanged in the final state (whose `closed` flag records the `finally`
cleanup). -/
theorem C4_capacity_error_no_advance (s : SampleStream) (w : Nat)
    (hw : s.allocated_buffer_frames < w) :
    ∃ rest,
      s.pull (some w) =
        PullResult.failed
          (Err.miniaudioError "wanted to read more frames than storage was allocated for")
          rest ∧
      rest.decoder = s.decoder ∧ rest.closed = true := by
  have hw0 : ¬ w = 0 := by omega
  refine ⟨{ s with closed := true }, ?_, rfl, rfl⟩
  simp only [SampleStream.pull, if_neg hw0]
  rw [if_pos hw]

/-- C4 witness: pulling 20000 frames from a freshly created stream with
default chunk size 1024 (capacity 16384) fails with the capacity error
and does not advance the two-frame decoder. -/
theorem C4_capacity_error_no_advance_witness :
    ∃ rest,
      exampleStream.pull (some 20000) =
        PullResult.failed
          (Err.miniaudioError "wanted to read more frames than storage was allocated for")
          rest ∧
      rest.decoder = exampleStream.decoder ∧ rest.closed = true :=
  C4_capacity_error_no_advance exampleStream 20000 (by decide)

/-- C10: a stream built by `_samples_generator` (as handed out by
`stream_file` / `stream_memory`) pre-allocates exactly
`max(frames_to_read, 16384)` frames of buffer, and a pull requesting at
most that many frames never fails: it yields a chunk or ends the stream,
even when the request exceeds the configured default. -/
theorem C10_pull_within_capacity_never_fails (ftr nch sw : Nat) (dec : Decoder) (w : Nat)
    (hw : w ≤ max ftr 16384) :
    (samples_generator_init ftr nch sw dec).allocated_buffer_frames = max ftr 16384 ∧
    ((∃ rest, (samples_generator_init ftr nch sw dec).pull (some w) =
        PullResult.stopped rest) ∨
     (∃ c rest, (samples_generator_init ftr nch sw dec).pull (some w) =
        PullResult.chunk c rest)) := by
  refine ⟨rfl, ?_⟩
  simp only [samples_generator_init, SampleStream.pull]
  have hcap : ¬ ((if w = 0 then ftr else w) > max ftr 16384) := by
    split_ifs with h0
    · exact not_lt.mpr (le_max_left _ _)
    · exact not_lt.mpr hw
  rw [if_neg hcap]
  by_cases hlen : (dec.frames.take (if w = 0 then ftr else w)).length = 0
  · exact Or.inl ⟨_, by rw [if_pos hlen]⟩
  · exact Or.inr ⟨_, _, by rw [if_neg hlen]⟩

/-- C10 witness: with default chunk size 1024, a pull of 5000 frames
(more than the default, at most 16384) on a two-frame decoder yields a
chunk rather than failing. -/
theorem C10_pull_within_capacity_never_fails_witness :
    (samples_generator_init 1024 2 2 ⟨[[1, 2], [3, 4]]⟩).allocated_buffer_frames =
      max 1024 16384 ∧
    ((∃ rest, (samples_generator_init 1024 2 2 ⟨[[1, 2], [3, 4]]⟩).pull (some 5000) =
        PullResult.stopped rest) ∨
     (∃ c rest, (samples_generator_init 1024 2 2 ⟨[[1, 2], [3, 4]]⟩).pull (some 5000) =
        PullResult.chunk c rest)) :=
  C10_pull_within_capacity_never_fails 1024 2 2 ⟨[[1, 2], [3, 4]]⟩ 5000 (by decide)

end PyMiniaudio
